import Mathlib

/-
Verification of the streetserver occupancy-reconciliation and ticket
lifecycle engine.

A shallow embedding of the Python sources:
  - `models.py`  : Ticket / ManualReview / Spot / PlateLog rows;
  - `main.py`    : `_process_post_task` (entry dispatch), `_exit_flow`,
                   `dismiss_manual_review`;
  - `ocr_processor.py` : `spot_has_car`, `process_plate_and_issue_ticket`;
  - `network.py` : `send_request_with_retry`.

External effects (YOLO detection, OCR HTTP responses, camera frame fetches,
billing gateway responses) enter as explicit oracle parameters; the relational
database is a `DB` record carrying the row lists and the autoincrement
counters; timestamps are abstracted to naturals.
-/

namespace StreetServer

/-- Timestamps: ISO instants abstracted to naturals. -/
abbrev Time := Nat

/-- `models.Spot`: static calibration row with the crop bounding box. -/
structure Spot where
  camera_id : Nat
  spot_number : Nat
  bbox_x1 : Int
  bbox_y1 : Int
  bbox_x2 : Int
  bbox_y2 : Int
deriving Repr, DecidableEq

/-- `models.Ticket`: one parking session.  `exit_time = none` means the
ticket is open; `parkonic_trip_id = none` means billing never confirmed. -/
structure Ticket where
  id : Nat
  camera_id : Nat
  spot_number : Nat
  plate_number : String
  plate_code : String
  plate_city : String
  confidence : Int
  entry_time : Time
  exit_time : Option Time
  parkonic_trip_id : Option Int
deriving Repr, DecidableEq

/-- `models.ManualReview`: escalation row written on every processed entry. -/
structure ManualReview where
  id : Nat
  camera_id : Nat
  spot_number : Nat
  event_time : Time
  ticket_id : Option Nat
  plate_status : String
  review_status : String
deriving Repr, DecidableEq

/-- `models.PlateLog`: audit row written on every processed entry. -/
structure PlateLog where
  camera_id : Nat
  confidence : Option Int
  status : String
deriving Repr, DecidableEq

/-- The ticket store: row lists plus the SQL autoincrement counters
(MySQL/SQLite autoincrement ids start at 1). -/
structure DB where
  tickets : List Ticket
  reviews : List ManualReview
  plate_logs : List PlateLog
  nextTicketId : Nat
  nextReviewId : Nat
deriving Repr, DecidableEq

/-- Empty store, autoincrement counters at 1. -/
def initDB : DB := ⟨[], [], [], 1, 1⟩

/-- The open-ticket predicate used by the three
`query(Ticket).filter_by(camera_id=…, spot_number=…, exit_time=None)`
look-ups in `main.py` and `ocr_processor.py`. -/
def openFor (cam spot : Nat) (t : Ticket) : Bool :=
  t.camera_id == cam && t.spot_number == spot && t.exit_time.isNone

/-- The `.first()` of that query.  Reachable stores hold at most one open
ticket per key (the invariant proved below), so which matching row is
returned is immaterial. -/
def openTicketFor (db : DB) (cam spot : Nat) : Option Ticket :=
  db.tickets.find? (openFor cam spot)

/-- Number of open tickets for one (camera, spot) key. -/
def openCount (db : DB) (cam spot : Nat) : Nat :=
  (db.tickets.filter (openFor cam spot)).length

/-- Setting `exit_time` on the row with the given primary key
(`open_ticket.exit_time = …` followed by commit). -/
def closeTicket (ts : List Ticket) (tid : Nat) (time : Time) : List Ticket :=
  ts.map fun t => if t.id = tid then { t with exit_time := some time } else t

/-- Primary-key lookup `db.query(Ticket).get(tid)`. -/
def getTicket (db : DB) (tid : Nat) : Option Ticket :=
  db.tickets.find? fun t => t.id == tid

/-- Primary-key lookup `db.query(ManualReview).get(rid)`. -/
def getReview (db : DB) (rid : Nat) : Option ManualReview :=
  db.reviews.find? fun r => r.id == rid

/-! ## Vision adapter: `ocr_processor.spot_has_car`

`spot_has_car(image, camera_id, spot_number)` first looks up the `Spot`
calibration row; with no row it returns `False` before ever running the
detector.  Otherwise it crops to the bounding box and returns whether the
YOLO model produced at least one box; that detector outcome on the crop is
the oracle `detect`. -/

/-- Embedding of `spot_has_car` (ocr_processor.py lines 38-75). -/
def spot_has_car (spotRow : Option Spot) (detect : Bool) : Bool :=
  match spotRow with
  | none => false
  | some _ => detect

/-! ## Exit flow: `main._exit_flow`

The frame acquisition chain (live `fetch_exit_frame`, falling back to the
event snapshot) either yields bytes or not (`frameBytes`); the
`spot_has_car` call may raise (`checkRaises`), which `_exit_flow` catches
and ignores. -/

/-- Outcome oracles for one exit event. -/
structure ExitEnv where
  /-- Frame acquisition produced bytes (live fetch succeeded, or the
  base64 snapshot in the payload decoded). -/
  frameBytes : Bool
  /-- The `spot_has_car` call raised an exception (caught by the caller). -/
  checkRaises : Bool
  /-- YOLO produced at least one detection box on the spot crop. -/
  detect : Bool
deriving Repr, DecidableEq

/-- The guard that short-circuits `_exit_flow` with "Spot still occupied":
an image is available, the check did not raise, and `spot_has_car` is true. -/
def exitSuppressed (spotRow : Option Spot) (e : ExitEnv) : Bool :=
  e.frameBytes && !e.checkRaises && spot_has_car spotRow e.detect

/-- Result of one processed occupancy event: the store afterwards, the
message of the 200 response, and whether the billing gateway was called. -/
structure StepResult where
  db : DB
  message : String
  parkInCalled : Bool
  parkOutCalled : Bool
deriving Repr, DecidableEq

/-- Embedding of `_exit_flow` (main.py lines 707-814): the occupancy check
runs first; only then is the open ticket looked up, closed at the event
time, and `park_out_request` issued when the ticket carries a trip id. -/
def exit_flow (db : DB) (spotRow : Option Spot) (cam spot : Nat) (time : Time)
    (e : ExitEnv) : StepResult :=
  if exitSuppressed spotRow e then
    ⟨db, "Spot still occupied", false, false⟩
  else
    match openTicketFor db cam spot with
    | some t =>
        ⟨{ db with tickets := closeTicket db.tickets t.id time },
          "Exit recorded", false, t.parkonic_trip_id.isSome⟩
    | none => ⟨db, "No open ticket to close", false, false⟩

/-- Repeated submission of exit events for one key: threads the store
through `exit_flow` and collects the response messages. -/
def runExits (spotRow : Option Spot) (cam spot : Nat) (time : Time) :
    DB → List ExitEnv → DB × List String
  | db, [] => (db, [])
  | db, e :: rest =>
      let r := exit_flow db spotRow cam spot time e
      let (db1, msgs) := runExits spotRow cam spot time r.db rest
      (db1, r.message :: msgs)

/-! ## Entry flow: `ocr_processor.process_plate_and_issue_ticket`

One OCR attempt condenses to three outcomes: YOLO found no plate box (no
OCR request is even sent), the OCR response could not be parsed to a JSON
object (either `json.loads` failed or the value had the wrong type), or a
parsed object carrying `text` / `category` / `cityName` and the integer
`confidance` field. -/

/-- Outcome of one YOLO-plus-OCR attempt on a spot crop. -/
inductive OcrOutcome where
  | noPlate
  | parseFail
  | conf (text : String) (category : String) (cityName : String) (c : Int)
deriving Repr, DecidableEq

/-- The `city_map` dictionary (ocr_processor.py lines 242-251). -/
def city_map (code : String) : String :=
  if code = "AE-AZ" then "Abu Dhabi"
  else if code = "AE-DU" then "Dubai"
  else if code = "AE-SH" then "Sharjah"
  else if code = "AE-AJ" then "Ajman"
  else if code = "AE-RK" then "RAK"
  else if code = "AE-FU" then "Fujairah"
  else if code = "AE-UQ" then "UAQ"
  else "Unknown"

/-- The plate fields accumulated by one attempt: `plate_status` together
with `plate_number` / `plate_code` / `plate_city` / `conf_val`, which are
set only in the `confidance_value >= 5` branch. -/
structure PlateRead where
  status : String
  plate_number : Option String
  plate_code : Option String
  plate_city : Option String
  conf_val : Option Int
deriving Repr, DecidableEq

/-- Classify one attempt: READ exactly when a parsed OCR object carries
`confidance >= 5`; every other outcome leaves the initial UNREAD state. -/
def readAttempt : OcrOutcome → PlateRead
  | OcrOutcome.conf txt cat city c =>
      if 5 ≤ c then ⟨"READ", some txt, some cat, some (city_map city), some c⟩
      else ⟨"UNREAD", none, none, none, none⟩
  | _ => ⟨"UNREAD", none, none, none, none⟩

/-- Outcome oracles for one entry event. -/
structure EntryEnv where
  /-- The snapshot file written by `_process_post_task` is present. -/
  snapshotOk : Bool
  /-- First YOLO/OCR attempt on the snapshot crop. -/
  ocr1 : OcrOutcome
  /-- `fetch_camera_frame` for the bounded retry succeeded (a failure is
  caught and abandons the retry). -/
  retryFrameOk : Bool
  /-- Second YOLO/OCR attempt on the fresh frame crop. -/
  ocr2 : OcrOutcome
  /-- `park_in_request` outcome: `none` = the request raised after all
  retries; `some none` = a response without `trip_id`; `some (some t)` =
  a response carrying `trip_id = t`. -/
  parkInResult : Option (Option Int)
deriving Repr, DecidableEq

/-- The plate reading after the first attempt and the bounded single
retry (ocr_processor.py lines 168-341): the retry runs only when the first
attempt left UNREAD and the fresh frame fetch succeeded, and it can only
upgrade UNREAD to READ. -/
def plateOutcome (e : EntryEnv) : PlateRead :=
  let r1 := readAttempt e.ocr1
  if r1.status = "READ" then r1
  else if e.retryFrameOk then
    let r2 := readAttempt e.ocr2
    if r2.status = "READ" then r2 else r1
  else r1

/-- Store plus the gateway-call flag produced by plate processing. -/
structure EntryEffect where
  db : DB
  parkInCalled : Bool
deriving Repr, DecidableEq

/-- Set `ticket_id` on the manual-review row with the given id
(`new_review_tx.ticket_id = new_ticket.id` followed by commit). -/
def linkReview (rs : List ManualReview) (rid tid : Nat) : List ManualReview :=
  rs.map fun r => if r.id = rid then { r with ticket_id := some tid } else r

/-- Embedding of `process_plate_and_issue_ticket` (ocr_processor.py lines
78-554).  Early returns: missing snapshot file, missing `Spot` calibration
row.  Otherwise: run the OCR attempts, insert a `PlateLog` row and a
`ManualReview` row (RESOLVED for READ, PENDING for UNREAD).  READ: call
`park_in_request`; a ticket is inserted (and the review linked) only when
the response carries a `trip_id`.  UNREAD: re-check for an open ticket and
return if one exists; otherwise insert an open ticket with no trip id and
link the review. -/
def process_plate_and_issue_ticket (db : DB) (spotRow : Option Spot)
    (cam spot : Nat) (time : Time) (e : EntryEnv) : EntryEffect :=
  if e.snapshotOk = false then ⟨db, false⟩
  else
    match spotRow with
    | none => ⟨db, false⟩
    | some _ =>
      let pr := plateOutcome e
      let review : ManualReview :=
        { id := db.nextReviewId, camera_id := cam, spot_number := spot,
          event_time := time, ticket_id := none, plate_status := pr.status,
          review_status := if pr.status = "READ" then "RESOLVED" else "PENDING" }
      let db2 : DB :=
        { db with
          plate_logs := db.plate_logs ++ [⟨cam, pr.conf_val, pr.status⟩],
          reviews := db.reviews ++ [review],
          nextReviewId := db.nextReviewId + 1 }
      if pr.status = "READ" then
        match e.parkInResult with
        | none => ⟨db2, true⟩
        | some none => ⟨db2, true⟩
        | some (some trip) =>
            let tk : Ticket :=
              { id := db2.nextTicketId, camera_id := cam, spot_number := spot,
                plate_number := pr.plate_number.getD "",
                plate_code := pr.plate_code.getD "",
                plate_city := pr.plate_city.getD "",
                confidence := pr.conf_val.getD 0,
                entry_time := time, exit_time := none,
                parkonic_trip_id := some trip }
            ⟨{ db2 with
                 tickets := db2.tickets ++ [tk],
                 nextTicketId := db2.nextTicketId + 1,
                 reviews := linkReview db2.reviews review.id tk.id }, true⟩
      else
        match openTicketFor db2 cam spot with
        | some _ => ⟨db2, false⟩
        | none =>
            let tk : Ticket :=
              { id := db2.nextTicketId, camera_id := cam, spot_number := spot,
                plate_number := pr.plate_number.getD "UNKNOWN",
                plate_code := pr.plate_code.getD "",
                plate_city := pr.plate_city.getD "",
                confidence := pr.conf_val.getD 0,
                entry_time := time, exit_time := none,
                parkonic_trip_id := none }
            ⟨{ db2 with
                 tickets := db2.tickets ++ [tk],
                 nextTicketId := db2.nextTicketId + 1,
                 reviews := linkReview db2.reviews review.id tk.id }, false⟩

/-- Over-approximating model of the `occupancy == 1` branch of
`_process_post_task` (main.py lines 1027-1084): an existing open ticket
short-circuits with "Spot already occupied" (main.py lines 1029-1043);
otherwise the handler runs plate processing and would answer
"Entry queued for processing" (main.py line 1084).  As shipped, the
non-duplicate branch never gets that far: `_process_plate_task` (main.py
lines 691-704) forwards 12 positional arguments, `rtsp_path` included, to
the 11-parameter `process_plate_and_issue_ticket` (ocr_processor.py lines
78-90), so the call raises `TypeError` at argument binding and the branch
performs no ticket-store writes at all — see `entry_flow_shipped` for the
faithful branch outcome.  This model instead lets plate processing run in
full, so its ticket-table writes are a strict superset of the program's;
it backs the single-open-ticket invariant, where covering more writes
only strengthens the result. -/
def entry_flow (db : DB) (spotRow : Option Spot) (cam spot : Nat) (time : Time)
    (e : EntryEnv) : StepResult :=
  match openTicketFor db cam spot with
  | some _ => ⟨db, "Spot already occupied", false, false⟩
  | none =>
      let eff := process_plate_and_issue_ticket db spotRow cam spot time e
      ⟨eff.db, "Entry queued for processing", eff.parkInCalled, false⟩

/-- Faithful embedding of the `occupancy == 1` branch as shipped.  After
the duplicate check, the handler calls `_process_plate_task`, whose
forwarding call passes 12 positional arguments to the 11-parameter
`process_plate_and_issue_ticket`; Python raises `TypeError` before the
callee body runs, `_post_worker` sets the exception on the task's future,
and `/post` surfaces an error response instead of a success message.  So
the branch either answers "Spot already occupied" or (`none`) produces no
success result at all; the ticket store is untouched in both cases, the
`TypeError` being raised before any callee write. -/
def entry_flow_shipped (db : DB) (cam spot : Nat) : Option StepResult :=
  match openTicketFor db cam spot with
  | some _ => some ⟨db, "Spot already occupied", false, false⟩
  | none => none

/-! ## `main.dismiss_manual_review` -/

/-- Result of a dismiss call: the store afterwards, whether the review
was found (404 otherwise), and the gateway-call flags. -/
structure DismissResult where
  db : DB
  found : Bool
  parkInCalled : Bool
  parkOutCalled : Bool
deriving Repr, DecidableEq

/-- Embedding of `dismiss_manual_review` (main.py lines 2052-2073).
Python's `if review.ticket_id:` is falsy both for `None` and for `0`;
when it holds and the ticket row exists and is open, its `exit_time` is
set to its own `entry_time`.  The review is then marked RESOLVED.  No
billing request is issued on this path. -/
def dismiss_manual_review (db : DB) (rid : Nat) : DismissResult :=
  match getReview db rid with
  | none => ⟨db, false, false, false⟩
  | some review =>
      let db1 : DB :=
        match review.ticket_id with
        | some tid =>
            if tid ≠ 0 then
              match getTicket db tid with
              | some t =>
                  if t.exit_time = none then
                    { db with tickets := closeTicket db.tickets tid t.entry_time }
                  else db
              | none => db
            else db
        | none => db
      ⟨{ db1 with
           reviews := db1.reviews.map fun r =>
             if r.id = rid then { r with review_status := "RESOLVED" } else r },
        true, false, false⟩

/-! ## The event machine

All occupancy events are serialized through the single `/post` worker
thread (`_post_worker`), so the reachable stores are exactly the fold of
the per-event step over an event list.  `dismiss_manual_review` also
mutates tickets and is included; the remaining endpoints that touch
tickets only rewrite plate fields. -/

/-- One serialized request against the ticket store. -/
inductive Event where
  | entryEv (spotRow : Option Spot) (cam spot : Nat) (time : Time) (e : EntryEnv)
  | exitEv (spotRow : Option Spot) (cam spot : Nat) (time : Time) (e : ExitEnv)
  | dismissEv (rid : Nat)

/-- Store transition of one event. -/
def stepDB (db : DB) : Event → DB
  | Event.entryEv sr cam spot time e => (entry_flow db sr cam spot time e).db
  | Event.exitEv sr cam spot time e => (exit_flow db sr cam spot time e).db
  | Event.dismissEv rid => (dismiss_manual_review db rid).db

/-- The store reached from `initDB` after a list of events. -/
def runEvents (db : DB) (es : List Event) : DB := es.foldl stepDB db

/-- At most one open ticket per (camera, spot) key. -/
def OneOpenInv (db : DB) : Prop := ∀ cam spot, openCount db cam spot ≤ 1

/-! ## Network retry: `network.send_request_with_retry` -/

/-- Transport outcome of one POST attempt. -/
inductive ReqOutcome where
  | ok (body : String)
  | err
deriving Repr, DecidableEq

/-- The retry loop of `send_request_with_retry` (network.py lines 17-27):
`attempt` is the current zero-based index, `remaining` the number of
retries still allowed.  A successful attempt returns its body at once; a
failed non-final attempt sleeps `backoff * 2 ^ attempt` and recurses; a
failed final attempt re-raises.  The returned list records the sleeps. -/
def retryLoop (responses : Nat → ReqOutcome) (backoff : ℚ) :
    Nat → Nat → Except Unit String × List ℚ
  | attempt, 0 =>
      match responses attempt with
      | ReqOutcome.ok body => (Except.ok body, [])
      | ReqOutcome.err => (Except.error (), [])
  | attempt, remaining + 1 =>
      match responses attempt with
      | ReqOutcome.ok body => (Except.ok body, [])
      | ReqOutcome.err =>
          let rest := retryLoop responses backoff (attempt + 1) remaining
          (rest.1, backoff * 2 ^ attempt :: rest.2)

/-- Embedding of `send_request_with_retry(url, payload, max_retries,
backoff)`: `responses` gives the transport outcome of each attempt.  The
billing and OCR call sites all use the defaults `max_retries = 2`,
`backoff = 1.0`. -/
def send_request_with_retry (responses : Nat → ReqOutcome) (max_retries : Nat)
    (backoff : ℚ) : Except Unit String × List ℚ :=
  retryLoop responses backoff 0 max_retries

/-! ## Concrete sample data for witnesses and counterexamples -/

/-- A calibrated spot: camera 5, spot 2. -/
def spot0 : Spot := ⟨5, 2, 0, 0, 10, 10⟩

/-- An open ticket for camera 5, spot 2 carrying trip id 7. -/
def sampleOpenTicket : Ticket := ⟨1, 5, 2, "ABC", "1", "Dubai", 10, 0, none, some 7⟩

/-- A store holding exactly that open ticket. -/
def sampleDB : DB := ⟨[sampleOpenTicket], [], [], 2, 1⟩

/-- Entry oracles: OCR reads confidence 10, billing answers without a
`trip_id`. -/
def envReadNoTrip : EntryEnv :=
  ⟨true, OcrOutcome.conf "ABC123" "1" "AE-DU" 10, false, OcrOutcome.noPlate, some none⟩

/-- Entry oracles: YOLO finds no plate box on either attempt. -/
def envNoPlate : EntryEnv :=
  ⟨true, OcrOutcome.noPlate, false, OcrOutcome.noPlate, none⟩

/-- Entry oracles: both OCR attempts parse with confidence `c`, and the
billing gateway would answer with trip id 77. -/
def envConf (c : Int) : EntryEnv :=
  ⟨true, OcrOutcome.conf "ABC" "1" "AE-DU" c, true,
   OcrOutcome.conf "ABC" "1" "AE-DU" c, some (some 77)⟩

/-- Exit oracles: frame available, check clean, vehicle still detected. -/
def stillThere : ExitEnv := ⟨true, false, true⟩

/-- Exit oracles: no image could be obtained at all. -/
def noFrame : ExitEnv := ⟨false, false, true⟩

/-- Exit oracles: frame available and the detector sees no vehicle. -/
def clearFrame : ExitEnv := ⟨true, false, false⟩

/-- Transport oracle: the first two attempts fail, the third succeeds. -/
def sampleResponses : Nat → ReqOutcome :=
  fun n => if n = 2 then ReqOutcome.ok "done" else ReqOutcome.err

/-- Transport oracle: every attempt fails. -/
def failResponses : Nat → ReqOutcome := fun _ => ReqOutcome.err

/-- A pending manual review linked to ticket 1. -/
def sampleReview : ManualReview := ⟨3, 5, 2, 0, some 1, "UNREAD", "PENDING"⟩

/-- A store holding the open ticket and its pending review. -/
def dbWithReview : DB := ⟨[sampleOpenTicket], [sampleReview], [], 2, 4⟩

/-- The contract response strings of the specification. -/
def claimedMessages : List String :=
  ["Exit recorded", "No open ticket to close", "Spot already occupied",
   "Spot still occupied", "Entry queued", "Entry processed"]

/-! ## Theorems -/

/-- C3: an exit event arriving while an open ticket exists, whose frame is
available and on which the vehicle detector (via `spot_has_car` on the
calibrated spot) still reports a vehicle, is a false clear: the store is
unchanged (the ticket's `exit_time` stays null), no billing CloseTrip call
is made, and the response is exactly "Spot still occupied". -/
theorem streetserver_C3 (db : DB) (sp : Spot) (cam spot : Nat) (time : Time)
    (e : ExitEnv) (t : Ticket)
    (_hopen : openTicketFor db cam spot = some t)
    (hframe : e.frameBytes = true) (hraise : e.checkRaises = false)
    (hdet : e.detect = true) :
    exit_flow db (some sp) cam spot time e = ⟨db, "Spot still occupied", false, false⟩ := by
  simp [exit_flow, exitSuppressed, spot_has_car, hframe, hraise, hdet]

/-- Witness for C3 at a concrete store with an open ticket. -/
theorem streetserver_C3_witness :
    exit_flow sampleDB (some spot0) 5 2 9 stillThere =
      ⟨sampleDB, "Spot still occupied", false, false⟩ :=
  streetserver_C3 sampleDB spot0 5 2 9 stillThere sampleOpenTicket rfl rfl rfl rfl

/-- C6: an exit event with an open ticket whose frame acquisition failed
(no image available) or whose vehicle-detection step raised is still
treated as an EXIT: the open ticket is closed at the event time, and the
response is "Exit recorded" (the CloseTrip call still depends only on the
trip id). -/
theorem streetserver_C6 (db : DB) (spotRow : Option Spot) (cam spot : Nat)
    (time : Time) (e : ExitEnv) (t : Ticket)
    (hopen : openTicketFor db cam spot = some t)
    (hfail : e.frameBytes = false ∨ e.checkRaises = true) :
    exit_flow db spotRow cam spot time e =
      ⟨{ db with tickets := closeTicket db.tickets t.id time },
        "Exit recorded", false, t.parkonic_trip_id.isSome⟩ := by
  rcases hfail with h | h <;> simp [exit_flow, exitSuppressed, h, hopen]

/-- Witness for C6: no image at all, the open ticket gets closed. -/
theorem streetserver_C6_witness :
    exit_flow sampleDB (some spot0) 5 2 9 noFrame =
      ⟨{ sampleDB with tickets := closeTicket sampleDB.tickets 1 9 },
        "Exit recorded", false, true⟩ :=
  streetserver_C6 sampleDB (some spot0) 5 2 9 noFrame sampleOpenTicket rfl (Or.inl rfl)

/-- C9: with no `Spot` calibration row, `spot_has_car` returns false
whatever the detector would say, so an exit event for an uncalibrated spot
is never suppressed as a false clear: its response is always one of
"Exit recorded" and "No open ticket to close". -/
theorem streetserver_C9 :
    (∀ d : Bool, spot_has_car none d = false) ∧
    ∀ (db : DB) (cam spot : Nat) (time : Time) (e : ExitEnv),
      (exit_flow db none cam spot time e).message = "Exit recorded" ∨
      (exit_flow db none cam spot time e).message = "No open ticket to close" := by
  refine ⟨fun d => rfl, fun db cam spot time e => ?_⟩
  rcases h : openTicketFor db cam spot with _ | t <;>
    simp [exit_flow, exitSuppressed, spot_has_car, h]

/-- C7 (amended) counterexample: with no open ticket but a calibrated spot
on which the detector still sees a vehicle, the exit response is
"Spot still occupied", not "No open ticket to close" — the occupancy check
runs before the ticket lookup. -/
theorem streetserver_C7_counterexample :
    openTicketFor initDB 5 2 = none ∧
    (exit_flow initDB (some spot0) 5 2 9 stillThere).message = "Spot still occupied" :=
  ⟨rfl, rfl⟩

/-- C7 (amended): with no open ticket for the key, any number of exit
events leaves the store (in particular the ticket table) completely
unchanged, and each response is "No open ticket to close" unless that
event's occupancy check classifies it as a false clear, in which case it
is "Spot still occupied". -/
theorem streetserver_C7_amended (db : DB) (spotRow : Option Spot)
    (cam spot : Nat) (time : Time) (es : List ExitEnv)
    (hopen : openTicketFor db cam spot = none) :
    runExits spotRow cam spot time db es =
      (db, es.map fun e =>
        if exitSuppressed spotRow e then "Spot still occupied"
        else "No open ticket to close") := by
  induction es with
  | nil => simp [runExits]
  | cons e rest ih =>
      have hstep : exit_flow db spotRow cam spot time e =
          ⟨db, if exitSuppressed spotRow e then "Spot still occupied"
               else "No open ticket to close", false, false⟩ := by
        by_cases hs : exitSuppressed spotRow e <;> simp [exit_flow, hs, hopen]
      simp [runExits, hstep, ih]

/-- Witness for C7: two exit events against the empty store, one with a
detector hit and one clean. -/
theorem streetserver_C7_witness :
    runExits (some spot0) 5 2 9 initDB [stillThere, clearFrame] =
      (initDB, ["Spot still occupied", "No open ticket to close"]) :=
  streetserver_C7_amended initDB (some spot0) 5 2 9 [stillThere, clearFrame] rfl

/-- C8: every success-path response the program can return to the ingress
caller lies inside the claimed contract set, preserved character for
character.  On the shipped entry branch (`entry_flow_shipped`) the only
success string is "Spot already occupied" — the non-duplicate branch
raises `TypeError` in `_process_plate_task`'s forwarding call before
main.py line 1084 could answer, so no entry success string is ever
produced; the exit branch returns exactly "Spot still occupied",
"Exit recorded" or "No open ticket to close". -/
theorem streetserver_C8 (db : DB) (spotRow : Option Spot) (cam spot : Nat)
    (time : Time) (x : ExitEnv) :
    (∀ r : StepResult, entry_flow_shipped db cam spot = some r →
      r.message ∈ claimedMessages) ∧
    (exit_flow db spotRow cam spot time x).message ∈ claimedMessages := by
  constructor
  · intro r hr
    rcases h : openTicketFor db cam spot with _ | t <;>
      simp only [entry_flow_shipped, h, Option.some.injEq,
        reduceCtorEq] at hr
    rw [← hr]
    simp [claimedMessages]
  · by_cases hs : exitSuppressed spotRow x
    · simp [exit_flow, hs, claimedMessages]
    · rcases h : openTicketFor db cam spot with _ | t <;>
        simp [exit_flow, hs, h, claimedMessages]

/-- Witness for C8: the duplicate-entry success string and a recorded
exit both lie in the claimed set. -/
theorem streetserver_C8_witness :
    (StepResult.mk sampleDB "Spot already occupied" false false).message ∈
      claimedMessages ∧
    (exit_flow sampleDB (some spot0) 5 2 9 clearFrame).message ∈
      claimedMessages :=
  ⟨(streetserver_C8 sampleDB (some spot0) 5 2 9 clearFrame).1
      ⟨sampleDB, "Spot already occupied", false, false⟩ rfl,
   (streetserver_C8 sampleDB (some spot0) 5 2 9 clearFrame).2⟩

/-- C4: for the retrying POST helper with its production configuration
`max_retries = 2` (three attempts): two transport failures followed by a
success yield the successful body; three failures surface the transport
error rather than a success; either way the waits between attempts are
`base * 2 ^ 0` and `base * 2 ^ 1` (exponential backoff). -/
theorem streetserver_C4 (responses : Nat → ReqOutcome) (base : ℚ) (body : String) :
    (responses 0 = ReqOutcome.err → responses 1 = ReqOutcome.err →
      responses 2 = ReqOutcome.ok body →
      send_request_with_retry responses 2 base =
        (Except.ok body, [base * 2 ^ 0, base * 2 ^ 1])) ∧
    (responses 0 = ReqOutcome.err → responses 1 = ReqOutcome.err →
      responses 2 = ReqOutcome.err →
      send_request_with_retry responses 2 base =
        (Except.error (), [base * 2 ^ 0, base * 2 ^ 1])) := by
  constructor <;> intro h0 h1 h2 <;>
    simp [send_request_with_retry, retryLoop, h0, h1, h2]

/-- Witness for C4: fail-fail-succeed returns the body; fail-fail-fail
surfaces the error; backoff waits are 1 and 2. -/
theorem streetserver_C4_witness :
    send_request_with_retry sampleResponses 2 1 =
      (Except.ok "done", [1 * 2 ^ 0, 1 * 2 ^ 1]) ∧
    send_request_with_retry failResponses 2 1 =
      (Except.error (), [1 * 2 ^ 0, 1 * 2 ^ 1]) :=
  ⟨(streetserver_C4 sampleResponses 1 "done").1 rfl rfl rfl,
   (streetserver_C4 failResponses 1 "done").2 rfl rfl rfl⟩

/-- C2 (amended) counterexample: a READ entry (OCR confidence 10) whose
`park_in_request` answers without a `trip_id` leaves the ticket table
empty — no local open ticket exists afterwards, contradicting the claim
that ticket creation survives the gateway outcome. -/
theorem streetserver_C2_counterexample :
    (plateOutcome envReadNoTrip).status = "READ" ∧
    envReadNoTrip.parkInResult = some none ∧
    (process_plate_and_issue_ticket initDB (some spot0) 5 2 0 envReadNoTrip).db.tickets = [] :=
  ⟨rfl, rfl, rfl⟩

/-- C2 (amended): on the ENTRY path with a READ plate, if the billing
OpenTrip call fails or returns no trip identifier, no Ticket row is
created at all — the ticket insert is skipped, and only the plate log and
the (RESOLVED) manual-review row are recorded. -/
theorem streetserver_C2_amended (db : DB) (sp : Spot) (cam spot : Nat)
    (time : Time) (e : EntryEnv)
    (hsnap : e.snapshotOk = true)
    (hread : (plateOutcome e).status = "READ")
    (hpark : e.parkInResult = none ∨ e.parkInResult = some none) :
    (process_plate_and_issue_ticket db (some sp) cam spot time e).db.tickets = db.tickets ∧
    (process_plate_and_issue_ticket db (some sp) cam spot time e).parkInCalled = true := by
  rcases hpark with h | h <;>
    simp [process_plate_and_issue_ticket, hsnap, hread, h]

/-- Witness for C2 at the counterexample input. -/
theorem streetserver_C2_witness :
    (process_plate_and_issue_ticket initDB (some spot0) 5 2 0 envReadNoTrip).db.tickets =
      initDB.tickets ∧
    (process_plate_and_issue_ticket initDB (some spot0) 5 2 0 envReadNoTrip).parkInCalled = true :=
  streetserver_C2_amended initDB spot0 5 2 0 envReadNoTrip rfl rfl (Or.inr rfl)

/-- C5: on the entry path with a present snapshot and calibrated spot,
when every OCR attempt parses with integer confidence `c`: if `c < 5`
(in particular `c = 4`) the plate is UNREAD, a manual-review row with
status PENDING is recorded, and no billing OpenTrip call is made; if
`5 ≤ c` (in particular `c = 5`) the plate is READ and the OpenTrip
(`park_in_request`) call is made. -/
theorem streetserver_C5 (db : DB) (sp : Spot) (cam spot : Nat) (time : Time)
    (e : EntryEnv) (txt cat city : String) (c : Int)
    (hsnap : e.snapshotOk = true)
    (h1 : e.ocr1 = OcrOutcome.conf txt cat city c)
    (h2 : e.ocr2 = OcrOutcome.conf txt cat city c) :
    (c < 5 →
      (process_plate_and_issue_ticket db (some sp) cam spot time e).parkInCalled = false ∧
      ∃ r ∈ (process_plate_and_issue_ticket db (some sp) cam spot time e).db.reviews,
        r.id = db.nextReviewId ∧ r.plate_status = "UNREAD" ∧
        r.review_status = "PENDING") ∧
    (5 ≤ c →
      (plateOutcome e).status = "READ" ∧
      (process_plate_and_issue_ticket db (some sp) cam spot time e).parkInCalled = true) := by
  constructor
  · intro hc
    have hlt : ¬(5 : Int) ≤ c := by omega
    have hout : plateOutcome e = ⟨"UNREAD", none, none, none, none⟩ := by
      simp [plateOutcome, readAttempt, h1, h2, hlt]
    constructor
    · simp [process_plate_and_issue_ticket, hsnap, hout]
      rcases hrc : openTicketFor
          { db with
            plate_logs := db.plate_logs ++ [⟨cam, none, "UNREAD"⟩],
            reviews := db.reviews ++
              [⟨db.nextReviewId, cam, spot, time, none, "UNREAD", "PENDING"⟩],
            nextReviewId := db.nextReviewId + 1 } cam spot with _ | t <;>
        simp [hrc]
    · simp [process_plate_and_issue_ticket, hsnap, hout]
      rcases hrc : openTicketFor
          { db with
            plate_logs := db.plate_logs ++ [⟨cam, none, "UNREAD"⟩],
            reviews := db.reviews ++
              [⟨db.nextReviewId, cam, spot, time, none, "UNREAD", "PENDING"⟩],
            nextReviewId := db.nextReviewId + 1 } cam spot with _ | t <;>
        simp [hrc, linkReview] <;>
        exact ⟨_, Or.inr rfl, rfl, rfl, rfl⟩
  · intro hc
    have hout : plateOutcome e =
        ⟨"READ", some txt, some cat, some (city_map city), some c⟩ := by
      simp [plateOutcome, readAttempt, h1, h2, hc]
    refine ⟨by rw [hout], ?_⟩
    rcases hp : e.parkInResult with _ | tr
    · simp [process_plate_and_issue_ticket, hsnap, hout, hp]
    · rcases tr with _ | trip <;>
        simp [process_plate_and_issue_ticket, hsnap, hout, hp]

/-- Witness for C5: confidence 4 stays UNREAD with a PENDING review and no
gateway call; confidence 5 is READ and calls the gateway. -/
theorem streetserver_C5_witness :
    ((process_plate_and_issue_ticket initDB (some spot0) 5 2 0 (envConf 4)).parkInCalled = false ∧
     ∃ r ∈ (process_plate_and_issue_ticket initDB (some spot0) 5 2 0 (envConf 4)).db.reviews,
       r.id = initDB.nextReviewId ∧ r.plate_status = "UNREAD" ∧
       r.review_status = "PENDING") ∧
    ((plateOutcome (envConf 5)).status = "READ" ∧
     (process_plate_and_issue_ticket initDB (some spot0) 5 2 0 (envConf 5)).parkInCalled = true) :=
  ⟨(streetserver_C5 initDB spot0 5 2 0 (envConf 4) "ABC" "1" "AE-DU" 4
      rfl rfl rfl).1 (by decide),
   (streetserver_C5 initDB spot0 5 2 0 (envConf 5) "ABC" "1" "AE-DU" 5
      rfl rfl rfl).2 (by decide)⟩

/-- Helper: `find?` commutes with a map whose function preserves the
predicate. -/
theorem find?_map_pres {α : Type} (p : α → Bool) (f : α → α) (l : List α)
    (hf : ∀ a, p (f a) = p a) :
    (l.map f).find? p = (l.find? p).map f := by
  induction l with
  | nil => rfl
  | cons a rest ih =>
      by_cases h : p a = true
      · rw [List.map_cons, List.find?_cons_of_pos _ ((hf a).trans h),
          List.find?_cons_of_pos _ h]
        rfl
      · rw [List.map_cons,
          List.find?_cons_of_neg _ (by rw [hf]; exact h),
          List.find?_cons_of_neg _ h, ih]

/-- C10: dismissing an existing manual review marks it RESOLVED; the
linked ticket gets `exit_time := entry_time` (a zero-duration closure)
exactly when that ticket exists and is still open, an already-closed
ticket is left untouched, and no billing call of either kind is made.
(The ticket-id hypothesis reflects that SQL autoincrement ids are
nonzero, which Python's `if review.ticket_id:` truthiness relies on.) -/
theorem streetserver_C10 (db : DB) (rid : Nat) (review : ManualReview)
    (hrev : getReview db rid = some review)
    (hids : ∀ t ∈ db.tickets, t.id ≠ 0) :
    (dismiss_manual_review db rid).found = true ∧
    getReview (dismiss_manual_review db rid).db rid =
      some { review with review_status := "RESOLVED" } ∧
    (match review.ticket_id with
     | none => (dismiss_manual_review db rid).db.tickets = db.tickets
     | some tid =>
         match getTicket db tid with
         | none => (dismiss_manual_review db rid).db.tickets = db.tickets
         | some t =>
             (dismiss_manual_review db rid).db.tickets =
               (if t.exit_time = none then
                  closeTicket db.tickets tid t.entry_time
                else db.tickets)) ∧
    (dismiss_manual_review db rid).parkInCalled = false ∧
    (dismiss_manual_review db rid).parkOutCalled = false := by
  have hid : review.id = rid := by
    have := List.find?_some hrev
    simpa using this
  have hdm : dismiss_manual_review db rid =
      ⟨{ db with
           tickets :=
             (match review.ticket_id with
              | none => db.tickets
              | some tid =>
                  if tid ≠ 0 then
                    match getTicket db tid with
                    | some t =>
                        if t.exit_time = none then
                          closeTicket db.tickets tid t.entry_time
                        else db.tickets
                    | none => db.tickets
                  else db.tickets),
           reviews := db.reviews.map fun r =>
             if r.id = rid then { r with review_status := "RESOLVED" } else r },
        true, false, false⟩ := by
    simp only [dismiss_manual_review, hrev]
    rcases hti : review.ticket_id with _ | tid
    · simp [hti]
    · simp only [hti]
      by_cases h0 : tid ≠ 0
      · rcases hg : getTicket db tid with _ | t
        · simp [hg, h0]
        · by_cases he : t.exit_time = none <;> simp [hg, h0, he]
      · simp [h0]
  have hcomm := find?_map_pres (fun r : ManualReview => r.id == rid)
    (fun r => if r.id = rid then { r with review_status := "RESOLVED" } else r)
    db.reviews
    (by intro r; by_cases h : r.id = rid <;> simp [h])
  refine ⟨by rw [hdm], ?_, ?_, by rw [hdm], by rw [hdm]⟩
  · rw [hdm]
    simp only [getReview] at hrev ⊢
    rw [hcomm, hrev]
    simp [hid]
  · rw [hdm]
    rcases hti : review.ticket_id with _ | tid
    · simp [hti]
    · simp only [hti]
      rcases hg : getTicket db tid with _ | t
      · by_cases h0 : tid ≠ 0 <;> simp [hg, h0]
      · have htmem : t ∈ db.tickets := List.mem_of_find?_eq_some hg
        have htid : t.id = tid := by
          have := List.find?_some hg
          simpa using this
        have h0 : tid ≠ 0 := htid ▸ hids t htmem
        simp [hg, h0]

/-- Witness for C10: dismissing the pending review linked to the open
sample ticket closes it at its entry time and resolves the review. -/
theorem streetserver_C10_witness :
    (dismiss_manual_review dbWithReview 3).found = true ∧
    getReview (dismiss_manual_review dbWithReview 3).db 3 =
      some { sampleReview with review_status := "RESOLVED" } ∧
    (match sampleReview.ticket_id with
     | none => (dismiss_manual_review dbWithReview 3).db.tickets = dbWithReview.tickets
     | some tid =>
         match getTicket dbWithReview tid with
         | none => (dismiss_manual_review dbWithReview 3).db.tickets = dbWithReview.tickets
         | some t =>
             (dismiss_manual_review dbWithReview 3).db.tickets =
               (if t.exit_time = none then
                  closeTicket dbWithReview.tickets tid t.entry_time
                else dbWithReview.tickets)) ∧
    (dismiss_manual_review dbWithReview 3).parkInCalled = false ∧
    (dismiss_manual_review dbWithReview 3).parkOutCalled = false :=
  streetserver_C10 dbWithReview 3 sampleReview rfl (by decide)

/-! ## The single-open-ticket invariant (C1) -/

/-- Helper: closing a row cannot make a closed row open. -/
theorem openFor_close_imp (c s tid : Nat) (time : Time) (t : Ticket) :
    openFor c s (if t.id = tid then { t with exit_time := some time } else t) = true →
    openFor c s t = true := by
  by_cases h : t.id = tid <;> simp [openFor, h]

/-- Helper: mapping a function that can only falsify the predicate does
not grow the filtered length. -/
theorem filter_length_map_le {α : Type} (p : α → Bool) (f : α → α) (l : List α)
    (hpf : ∀ a, p (f a) = true → p a = true) :
    ((l.map f).filter p).length ≤ (l.filter p).length := by
  induction l with
  | nil => simp
  | cons a rest ih =>
      by_cases h : p (f a) = true
      · rw [List.map_cons]
        simp only [List.filter_cons, h, hpf a h, if_true]
        exact Nat.succ_le_succ ih
      · rw [List.map_cons]
        by_cases h2 : p a = true <;>
          simp only [List.filter_cons, h, h2, if_true, if_false, List.length_cons]
        · exact Nat.le_succ_of_le ih
        · exact ih

/-- Helper: closing one ticket never increases the number of open tickets
for any key. -/
theorem closeTicket_filter_le (l : List Ticket) (tid : Nat) (time : Time) (c s : Nat) :
    ((closeTicket l tid time).filter (openFor c s)).length ≤
      (l.filter (openFor c s)).length :=
  filter_length_map_le _ _ _ (fun t => openFor_close_imp c s tid time t)

/-- Helper: filtered length after appending one element. -/
theorem filter_append_one {α : Type} (p : α → Bool) (l : List α) (a : α) :
    ((l ++ [a]).filter p).length =
      (l.filter p).length + (if p a = true then 1 else 0) := by
  by_cases h : p a = true <;> simp [List.filter_append, List.filter_cons, h]

/-- Helper: if the open-ticket lookup finds nothing, the open count for
that key is zero. -/
theorem openCount_zero (db : DB) (c s : Nat)
    (h : openTicketFor db c s = none) : openCount db c s = 0 := by
  have hall := List.find?_eq_none.mp h
  simp only [openCount, List.length_eq_zero]
  exact List.filter_eq_nil_iff.mpr hall

/-- Helper: plate processing either leaves the ticket table alone or
appends exactly one open ticket for the processed key. -/
theorem process_plate_tickets (db : DB) (sr : Option Spot) (cam spot : Nat)
    (time : Time) (e : EntryEnv) :
    (process_plate_and_issue_ticket db sr cam spot time e).db.tickets = db.tickets ∨
    ∃ tk : Ticket,
      (process_plate_and_issue_ticket db sr cam spot time e).db.tickets =
        db.tickets ++ [tk] ∧
      tk.camera_id = cam ∧ tk.spot_number = spot ∧ tk.exit_time = none := by
  simp only [process_plate_and_issue_ticket]
  split
  · left; rfl
  · split
    · left; rfl
    · split
      · split
        · left; rfl
        · left; rfl
        · right; exact ⟨_, rfl, rfl, rfl, rfl⟩
      · split
        · left; rfl
        · right; exact ⟨_, rfl, rfl, rfl, rfl⟩

/-- Helper: the entry flow preserves the single-open-ticket invariant. -/
theorem OneOpenInv_entry (db : DB) (sr : Option Spot) (cam spot : Nat)
    (time : Time) (e : EntryEnv) (h : OneOpenInv db) :
    OneOpenInv (entry_flow db sr cam spot time e).db := by
  rcases hopen : openTicketFor db cam spot with _ | t
  · have h0 : openCount db cam spot = 0 := openCount_zero db cam spot hopen
    rcases process_plate_tickets db sr cam spot time e with hunch | ⟨tk, htk, hc, hsp, hex⟩
    · intro c s
      simp only [entry_flow, hopen, openCount, hunch]
      exact h c s
    · intro c s
      simp only [entry_flow, hopen, openCount, htk]
      rw [filter_append_one]
      by_cases hcs : openFor c s tk = true
      · have hkey : cam = c ∧ spot = s := by
          simpa [openFor, hc, hsp, hex] using hcs
        rcases hkey with ⟨rfl, rfl⟩
        simp only [openCount] at h0
        simp [hcs, h0]
      · simp only [hcs, if_false]
        simpa using h c s
  · intro c s
    simp only [entry_flow, hopen, openCount]
    exact h c s

/-- Helper: the exit flow preserves the single-open-ticket invariant. -/
theorem OneOpenInv_exit (db : DB) (sr : Option Spot) (cam spot : Nat)
    (time : Time) (e : ExitEnv) (h : OneOpenInv db) :
    OneOpenInv (exit_flow db sr cam spot time e).db := by
  by_cases hs : exitSuppressed sr e
  · simpa [exit_flow, hs] using h
  · rcases hopen : openTicketFor db cam spot with _ | t
    · simpa [exit_flow, hs, hopen] using h
    · intro c s
      simp only [exit_flow, hs, hopen, if_false, openCount]
      exact le_trans (closeTicket_filter_le db.tickets t.id time c s) (h c s)

/-- Helper: dismissing a review preserves the single-open-ticket
invariant. -/
theorem OneOpenInv_dismiss (db : DB) (rid : Nat) (h : OneOpenInv db) :
    OneOpenInv (dismiss_manual_review db rid).db := by
  intro c s
  simp only [dismiss_manual_review]
  split
  · exact h c s
  · split
    · split
      · split
        · split
          · exact le_trans (closeTicket_filter_le _ _ _ _ _) (h c s)
          · exact h c s
        · exact h c s
      · exact h c s
    · exact h c s

/-- Helper: every serialized event preserves the invariant. -/
theorem OneOpenInv_step (db : DB) (ev : Event) (h : OneOpenInv db) :
    OneOpenInv (stepDB db ev) := by
  cases ev with
  | entryEv sr cam spot time e => exact OneOpenInv_entry db sr cam spot time e h
  | exitEv sr cam spot time e => exact OneOpenInv_exit db sr cam spot time e h
  | dismissEv rid => exact OneOpenInv_dismiss db rid h

/-- Helper: the invariant is preserved along any event list. -/
theorem OneOpenInv_run (es : List Event) :
    ∀ db : DB, OneOpenInv db → OneOpenInv (runEvents db es) := by
  induction es with
  | nil => intro db h; exact h
  | cons ev rest ih => intro db h; exact ih _ (OneOpenInv_step db ev h)

/-- C1: every store reachable from the empty store through serialized
occupancy events (entries, exits, review dismissals) has at most one open
ticket per (camera, spot) key; and an entry event arriving while an open
ticket exists creates nothing and answers the duplicate-ENTRY NOOP
"Spot already occupied". -/
theorem streetserver_C1 :
    (∀ es : List Event, OneOpenInv (runEvents initDB es)) ∧
    (∀ (db : DB) (sr : Option Spot) (cam spot : Nat) (time : Time)
        (e : EntryEnv) (t : Ticket),
        openTicketFor db cam spot = some t →
        entry_flow db sr cam spot time e =
          ⟨db, "Spot already occupied", false, false⟩) := by
  constructor
  · intro es
    exact OneOpenInv_run es initDB (fun _ _ => Nat.zero_le 1)
  · intro db sr cam spot time e t h
    simp [entry_flow, h]

/-- Witness for C1: the empty run satisfies the invariant, and an entry
against the store holding an open ticket is refused. -/
theorem streetserver_C1_witness :
    OneOpenInv (runEvents initDB []) ∧
    entry_flow sampleDB (some spot0) 5 2 3 envNoPlate =
      ⟨sampleDB, "Spot already occupied", false, false⟩ :=
  ⟨streetserver_C1.1 [],
   streetserver_C1.2 sampleDB (some spot0) 5 2 3 envNoPlate sampleOpenTicket rfl⟩

end StreetServer
